import Mathlib

/-!
Verification of the configuration surface of FREILab/RFID-Box-3D.

The repository's source consists of two C header files of compile-time
constants (`src/config_3D.h` and `src/sw/RFID_3D_ESP32/config_3D.h`).
The two headers are embedded below as `profileLab` and `profileEsp32`.
The construction and validation of a `DeviceConfig` from a profile is not
present in the source; following the specification it is modelled here
(`buildDeviceConfig` and its helper predicates), marked `Modelled from the
spec:` in the doc comments.
-/

namespace RFIDBox3D

/-- A configuration profile: the set of named values a config header
provides.  `rfidAuthConstant` is optional because `src/config_3D.h`
does not define `RFIDCARD_AUTH_CONST` while the ESP32 variant does. -/
structure Profile where
  wifiSsid : String
  wifiPassword : String
  serverAddress : String
  authToken : String
  rfidAuthConstant : Option Bool
  machineName : String
  machineId : String
deriving Repr, DecidableEq

/-- The profile embedded from `src/config_3D.h`:
`WIFI_SSID "ssid"`, `WIFI_PASSWORD "password"`, `SERVER_IP "0.0.0.0"`,
`AUTHENTICATION_TOKEN "token"`, no `RFIDCARD_AUTH_CONST`,
`MACHINE_NAME "name"`, `MACHINE_ID "id"`. -/
def profileLab : Profile :=
  ⟨"ssid", "password", "0.0.0.0", "token", none, "name", "id"⟩

/-- The profile embedded from `src/sw/RFID_3D_ESP32/config_3D.h`:
`WIFI_SSID "SSID"`, `WIFI_PASSWORD "password"`,
`SERVER_IP "192.168.178.99"`, `AUTHENTICATION_TOKEN "token"`,
`RFIDCARD_AUTH_CONST false`, `MACHINE_NAME "name"`, `MACHINE_ID "id"`. -/
def profileEsp32 : Profile :=
  ⟨"SSID", "password", "192.168.178.99", "token", some false, "name", "id"⟩

/-- Modelled from the spec: the taxonomy of configuration errors
(`ConfigError::MissingField`, `InvalidAddress`, `PlaceholderCredential`,
`InvalidBoolean`); no error type exists in the source headers. -/
inductive ConfigError where
  | MissingField
  | InvalidAddress
  | PlaceholderCredential
  | InvalidBoolean
deriving Repr, DecidableEq

/-- Modelled from the spec: a fully populated, typed `DeviceConfig` value;
`rfidAuthConstant` is a plain boolean (absent in the profile defaults to
`false`). -/
structure DeviceConfig where
  wifiSsid : String
  wifiPassword : String
  serverAddress : String
  authToken : String
  rfidAuthConstant : Bool
  machineName : String
  machineId : String
deriving Repr, DecidableEq

/-- Whitespace as used for trimming. -/
def isWS (c : Char) : Bool :=
  c = ' ' || c = '\t' || c = '\n' || c = '\r'

/-- Trim leading and trailing whitespace from a list of characters. -/
def trimChars (l : List Char) : List Char :=
  ((l.dropWhile isWS).reverse.dropWhile isWS).reverse

/-- A string is non-empty after trimming whitespace. -/
def presentAfterTrim (s : String) : Bool :=
  !(trimChars s.data).isEmpty

/-- Split a character list on a separator character. -/
def splitOnChar (sep : Char) : List Char → List (List Char)
  | [] => [[]]
  | c :: cs =>
    if c = sep then
      [] :: splitOnChar sep cs
    else
      ((c :: (splitOnChar sep cs).headD []) :: (splitOnChar sep cs).tail)

/-- Decimal value of a digit list. -/
def digitsToNat (l : List Char) : Nat :=
  l.foldl (fun a c => 10 * a + (c.toNat - 48)) 0

/-- A valid IPv4 octet: one to three decimal digits with value at most 255. -/
def isIPv4Octet (l : List Char) : Bool :=
  decide (0 < l.length) && decide (l.length ≤ 3) &&
    l.all Char.isDigit && decide (digitsToNat l ≤ 255)

/-- Modelled from the spec: `serverAddress` must parse as an IPv4 literal —
four dot-separated octets. -/
def isValidIPv4 (s : String) : Bool :=
  decide ((splitOnChar '.' s.data).length = 4) &&
    (splitOnChar '.' s.data).all isIPv4Octet

/-- A hexadecimal digit. -/
def isHexDigitChar (c : Char) : Bool :=
  c.isDigit || (decide ('a' ≤ c) && decide (c ≤ 'f')) ||
    (decide ('A' ≤ c) && decide (c ≤ 'F'))

/-- A character allowed in an IPv6 literal. -/
def isIPv6Char (c : Char) : Bool :=
  isHexDigitChar c || c = ':'

/-- Modelled from the spec: `serverAddress` may be an IPv6 literal —
colon-separated groups of at most four hex digits, at most nine groups. -/
def isValidIPv6 (s : String) : Bool :=
  s.data.contains ':' && s.data.all isIPv6Char &&
    decide ((splitOnChar ':' s.data).length ≤ 9) &&
    (splitOnChar ':' s.data).all (fun g => decide (g.length ≤ 4))

/-- A character allowed in a hostname label. -/
def isLabelChar (c : Char) : Bool :=
  c.isAlphanum || c = '-'

/-- A valid hostname label: non-empty, at most 63 characters, alphanumeric
or hyphen, neither starting nor ending with a hyphen. -/
def isValidLabel (l : List Char) : Bool :=
  decide (0 < l.length) && decide (l.length ≤ 63) &&
    l.all isLabelChar &&
    !(l.headD 'a' = '-') && !(l.getLastD 'a' = '-')

/-- Modelled from the spec: `serverAddress` may be a hostname —
dot-separated valid labels, at most 253 characters overall. -/
def isValidHostname (s : String) : Bool :=
  decide (0 < s.data.length) && decide (s.data.length ≤ 253) &&
    (splitOnChar '.' s.data).all isValidLabel

/-- Modelled from the spec: `serverAddress` must parse as a valid hostname
or IPv4/IPv6 literal. -/
def isValidServerAddress (s : String) : Bool :=
  isValidIPv4 s || isValidIPv6 s || isValidHostname s

/-- Modelled from the spec: the literal placeholder value for the
authentication token (the template default shipped in the headers). -/
def placeholderToken : String := "token"

/-- Modelled from the spec: the five required fields — `wifiSsid`,
`serverAddress`, `authToken`, `machineName`, `machineId` — are all
non-empty after trimming. -/
def requiredFieldsPresent (p : Profile) : Bool :=
  presentAfterTrim p.wifiSsid && presentAfterTrim p.serverAddress &&
    presentAfterTrim p.authToken && presentAfterTrim p.machineName &&
    presentAfterTrim p.machineId

/-- The populated `DeviceConfig` built from a profile that passed
validation: every field copied verbatim, the absent RFID flag
defaulting to `false`. -/
def mkDeviceConfig (p : Profile) : DeviceConfig :=
  ⟨p.wifiSsid, p.wifiPassword, p.serverAddress, p.authToken,
    p.rfidAuthConstant.getD false, p.machineName, p.machineId⟩

/-- Modelled from the spec: construction of a `DeviceConfig` from a
profile, validating fail-fast in the order the spec lists —
required fields non-empty after trimming (`MissingField`), server
address parseable (`InvalidAddress`), authentication token not the
placeholder (`PlaceholderCredential`); the optional RFID flag is already
a boolean in the profile, absent treated as `false`. -/
def buildDeviceConfig (p : Profile) : Except ConfigError DeviceConfig :=
  if !(requiredFieldsPresent p) then
    .error .MissingField
  else if !(isValidServerAddress p.serverAddress) then
    .error .InvalidAddress
  else if p.authToken = placeholderToken then
    .error .PlaceholderCredential
  else
    .ok (mkDeviceConfig p)

/-- Modelled from the spec: the operations the configuration module
exposes after construction — read-only typed accessors, one per field;
the spec states no setter exists, so no mutating operation appears. -/
inductive ConfigOp where
  | readWifiSsid
  | readWifiPassword
  | readServerAddress
  | readAuthToken
  | readRfidAuthConstant
  | readMachineName
  | readMachineId
deriving Repr, DecidableEq

/-- A value returned by an accessor: a string field or the boolean flag. -/
inductive ConfigValue where
  | str (s : String)
  | flag (b : Bool)
deriving Repr, DecidableEq

/-- Semantics of one accessor: the value read and the configuration state
after the operation. -/
def runOp : ConfigOp → DeviceConfig → ConfigValue × DeviceConfig
  | .readWifiSsid, c => (.str c.wifiSsid, c)
  | .readWifiPassword, c => (.str c.wifiPassword, c)
  | .readServerAddress, c => (.str c.serverAddress, c)
  | .readAuthToken, c => (.str c.authToken, c)
  | .readRfidAuthConstant, c => (.flag c.rfidAuthConstant, c)
  | .readMachineName, c => (.str c.machineName, c)
  | .readMachineId, c => (.str c.machineId, c)

/-- Run a sequence of accessor operations, threading the configuration
state and collecting the values read. -/
def runOps : List ConfigOp → DeviceConfig → List ConfigValue × DeviceConfig
  | [], c => ([], c)
  | op :: ops, c =>
    ((runOp op c).1 :: (runOps ops (runOp op c).2).1,
      (runOps ops (runOp op c).2).2)

deriving instance DecidableEq for Except

/-- A profile with the placeholder token but an empty `wifiSsid`:
trimming-emptiness is checked before the placeholder credential. -/
def cexTokenProfile : Profile :=
  ⟨"", "password", "0.0.0.0", "token", none, "name", "id"⟩

/-- A profile whose server address is a single space: it is not a
parseable host, but it is also empty after trimming. -/
def cexAddrProfile : Profile :=
  ⟨"ssid", "password", " ", "s3cr3t-9f2", none, "name", "id"⟩

/-- Concrete scenario C of the spec: the ESP32 profile values with the
server string replaced by `"not an address!"` and a real token. -/
def scenarioCProfile : Profile :=
  ⟨"SSID", "password", "not an address!", "s3cr3t-9f2", some false, "name", "id"⟩

/-- Concrete scenario B of the spec: `{ssid:"SSID", password:"password",
server:"192.168.178.99", token:"s3cr3t-9f2", rfidFlag:false,
machineName:"name", machineId:"id"}`. -/
def scenarioBProfile : Profile :=
  ⟨"SSID", "password", "192.168.178.99", "s3cr3t-9f2", some false, "name", "id"⟩

/-- Scenario B with the RFID flag explicitly `true`. -/
def scenarioBTrueProfile : Profile :=
  ⟨"SSID", "password", "192.168.178.99", "s3cr3t-9f2", some true, "name", "id"⟩

/-- The lab profile with the placeholder token replaced by a real one and
the RFID flag absent. -/
def labFixedProfile : Profile :=
  ⟨"ssid", "password", "0.0.0.0", "s3cr3t-9f2", none, "name", "id"⟩

/-- A profile whose `wifiSsid` is whitespace only. -/
def blankSsidProfile : Profile :=
  ⟨" ", "password", "0.0.0.0", "s3cr3t-9f2", none, "name", "id"⟩

/-- Claim C1 counterexample: a profile whose `authToken` equals `"token"`
but whose `wifiSsid` is empty fails with `MissingField`, not
`PlaceholderCredential` — the required-field check runs first. -/
theorem claim1_counterexample :
    cexTokenProfile.authToken = "token" ∧
    buildDeviceConfig cexTokenProfile = Except.error ConfigError.MissingField ∧
    buildDeviceConfig cexTokenProfile ≠ Except.error ConfigError.PlaceholderCredential := by
  refine ⟨rfl, rfl, ?_⟩
  decide

/-- Claim C1 (amended): for every profile whose `authToken` equals the
placeholder `"token"`, construction never yields a populated
`DeviceConfig`; and whenever the earlier validations pass (required
fields present, server address valid) it fails with
`PlaceholderCredential`. -/
theorem claim1_placeholder_token (p : Profile)
    (h : p.authToken = placeholderToken) :
    (∀ c, buildDeviceConfig p ≠ Except.ok c) ∧
    (requiredFieldsPresent p = true →
      isValidServerAddress p.serverAddress = true →
      buildDeviceConfig p = Except.error ConfigError.PlaceholderCredential) := by
  constructor
  · intro c hc
    unfold buildDeviceConfig at hc
    split at hc
    · exact Except.noConfusion hc
    · split at hc
      · exact Except.noConfusion hc
      · simp [h] at hc
  · intro hreq haddr
    unfold buildDeviceConfig
    rw [hreq, haddr, h]
    simp

/-- Witness for C1 (amended) at the embedded lab profile. -/
theorem claim1_witness :
    buildDeviceConfig profileLab ≠ Except.ok (mkDeviceConfig profileLab) ∧
    buildDeviceConfig profileLab = Except.error ConfigError.PlaceholderCredential :=
  ⟨(claim1_placeholder_token profileLab rfl).1 (mkDeviceConfig profileLab),
   (claim1_placeholder_token profileLab rfl).2 rfl rfl⟩

/-- Claim C2: for every profile passing all construction validation,
construction succeeds and every accessor of the resulting `DeviceConfig`
returns exactly the source value; an explicitly supplied RFID flag is
returned unchanged, in particular `true` round-trips to `true`. -/
theorem claim2_roundtrip (p : Profile)
    (h1 : requiredFieldsPresent p = true)
    (h2 : isValidServerAddress p.serverAddress = true)
    (h3 : p.authToken ≠ placeholderToken) :
    buildDeviceConfig p = Except.ok (mkDeviceConfig p) ∧
    (mkDeviceConfig p).wifiSsid = p.wifiSsid ∧
    (mkDeviceConfig p).wifiPassword = p.wifiPassword ∧
    (mkDeviceConfig p).serverAddress = p.serverAddress ∧
    (mkDeviceConfig p).authToken = p.authToken ∧
    (mkDeviceConfig p).machineName = p.machineName ∧
    (mkDeviceConfig p).machineId = p.machineId ∧
    (∀ b, p.rfidAuthConstant = some b →
      (mkDeviceConfig p).rfidAuthConstant = b) := by
  refine ⟨?_, rfl, rfl, rfl, rfl, rfl, rfl, ?_⟩
  · unfold buildDeviceConfig
    rw [h1, h2]
    simp [h3]
  · intro b hb
    simp [mkDeviceConfig, hb]

/-- Witness for C2 at scenario B with the RFID flag explicitly `true`. -/
theorem claim2_witness :
    buildDeviceConfig scenarioBTrueProfile =
      Except.ok (mkDeviceConfig scenarioBTrueProfile) ∧
    (mkDeviceConfig scenarioBTrueProfile).rfidAuthConstant = true :=
  ⟨(claim2_roundtrip scenarioBTrueProfile rfl rfl (by decide)).1,
   (claim2_roundtrip scenarioBTrueProfile rfl rfl
      (by decide)).2.2.2.2.2.2.2 true rfl⟩

/-- Claim C3 counterexample: a profile whose server address is a single
space does not parse as a host, yet construction fails with
`MissingField` (the address is empty after trimming), not
`InvalidAddress`. -/
theorem claim3_counterexample :
    isValidServerAddress cexAddrProfile.serverAddress = false ∧
    buildDeviceConfig cexAddrProfile = Except.error ConfigError.MissingField ∧
    buildDeviceConfig cexAddrProfile ≠ Except.error ConfigError.InvalidAddress := by
  refine ⟨rfl, rfl, ?_⟩
  decide

/-- Claim C3 (amended): for every profile whose required fields are
non-empty after trimming, an unparseable server address makes
construction fail with `InvalidAddress`; in particular the scenario-C
input with server `"not an address!"` fails with `InvalidAddress`. -/
theorem claim3_invalid_address (p : Profile)
    (h1 : requiredFieldsPresent p = true)
    (h2 : isValidServerAddress p.serverAddress = false) :
    buildDeviceConfig p = Except.error ConfigError.InvalidAddress ∧
    buildDeviceConfig scenarioCProfile = Except.error ConfigError.InvalidAddress := by
  constructor
  · unfold buildDeviceConfig
    rw [h1, h2]
    simp
  · rfl

/-- Witness for C3 (amended) at the scenario-C profile. -/
theorem claim3_witness :
    buildDeviceConfig scenarioCProfile = Except.error ConfigError.InvalidAddress :=
  (claim3_invalid_address scenarioCProfile rfl rfl).1

/-- Claim C4: for every profile omitting the RFID flag, construction
never fails on the absent flag (no `InvalidBoolean` error arises) and
any successfully constructed `DeviceConfig` has
`rfidAuthConstant = false`. -/
theorem claim4_absent_flag_defaults_false (p : Profile)
    (h : p.rfidAuthConstant = none) :
    buildDeviceConfig p ≠ Except.error ConfigError.InvalidBoolean ∧
    (∀ c, buildDeviceConfig p = Except.ok c → c.rfidAuthConstant = false) := by
  constructor
  · intro hc
    unfold buildDeviceConfig at hc
    split at hc
    · exact ConfigError.noConfusion (Except.error.inj hc)
    · split at hc
      · exact ConfigError.noConfusion (Except.error.inj hc)
      · split at hc
        · exact ConfigError.noConfusion (Except.error.inj hc)
        · exact Except.noConfusion hc
  · intro c hc
    unfold buildDeviceConfig at hc
    split at hc
    · exact Except.noConfusion hc
    · split at hc
      · exact Except.noConfusion hc
      · split at hc
        · exact Except.noConfusion hc
        · rw [← Except.ok.inj hc]
          simp [mkDeviceConfig, h]

/-- Witness for C4 at the lab profile with a real token and no flag. -/
theorem claim4_witness :
    buildDeviceConfig labFixedProfile ≠ Except.error ConfigError.InvalidBoolean ∧
    (mkDeviceConfig labFixedProfile).rfidAuthConstant = false :=
  ⟨(claim4_absent_flag_defaults_false labFixedProfile rfl).1,
   (claim4_absent_flag_defaults_false labFixedProfile rfl).2
      (mkDeviceConfig labFixedProfile) rfl⟩

/-- Claim C5: for the concrete scenario-B input, construction succeeds
and the `serverAddress` accessor returns `"192.168.178.99"`. -/
theorem claim5_scenarioB :
    buildDeviceConfig scenarioBProfile = Except.ok (mkDeviceConfig scenarioBProfile) ∧
    (mkDeviceConfig scenarioBProfile).serverAddress = "192.168.178.99" :=
  ⟨rfl, rfl⟩

/-- Claim C6: if any of the five required fields is empty after trimming,
construction fails with `MissingField` and yields no `DeviceConfig`;
conversely a successful construction implies all five are non-empty
after trimming. -/
theorem claim6_required_fields (p : Profile) :
    ((presentAfterTrim p.wifiSsid = false ∨
      presentAfterTrim p.serverAddress = false ∨
      presentAfterTrim p.authToken = false ∨
      presentAfterTrim p.machineName = false ∨
      presentAfterTrim p.machineId = false) →
      buildDeviceConfig p = Except.error ConfigError.MissingField ∧
      ∀ c, buildDeviceConfig p ≠ Except.ok c) ∧
    (∀ c, buildDeviceConfig p = Except.ok c →
      presentAfterTrim p.wifiSsid = true ∧
      presentAfterTrim p.serverAddress = true ∧
      presentAfterTrim p.authToken = true ∧
      presentAfterTrim p.machineName = true ∧
      presentAfterTrim p.machineId = true) := by
  constructor
  · intro hmiss
    have hreq : requiredFieldsPresent p = false := by
      unfold requiredFieldsPresent
      rcases hmiss with h | h | h | h | h <;> simp [h]
    have herr : buildDeviceConfig p = Except.error ConfigError.MissingField := by
      unfold buildDeviceConfig
      rw [hreq]
      simp
    exact ⟨herr, fun c hc => Except.noConfusion (herr ▸ hc)⟩
  · intro c hc
    have hreq : requiredFieldsPresent p = true := by
      by_contra hn
      have hf : requiredFieldsPresent p = false := by
        cases hx : requiredFieldsPresent p
        · rfl
        · exact absurd hx hn
      unfold buildDeviceConfig at hc
      rw [hf] at hc
      exact Except.noConfusion hc
    unfold requiredFieldsPresent at hreq
    simp only [Bool.and_eq_true] at hreq
    exact ⟨hreq.1.1.1.1, hreq.1.1.1.2, hreq.1.1.2, hreq.1.2, hreq.2⟩

/-- Witness for C6 at a profile with a whitespace-only `wifiSsid`. -/
theorem claim6_witness :
    buildDeviceConfig blankSsidProfile = Except.error ConfigError.MissingField ∧
    ∀ c, buildDeviceConfig blankSsidProfile ≠ Except.ok c :=
  (claim6_required_fields blankSsidProfile).1 (Or.inl rfl)

/-- Claim C7: the module offers only read accessors (no setter exists in
the operation type), each accessor leaves the configuration unchanged,
and running any sequence of operations after construction leaves every
field equal to its construction-time value. -/
theorem claim7_immutable (ops : List ConfigOp) (c : DeviceConfig) :
    (runOps ops c).2 = c ∧ ∀ op, (runOp op c).2 = c := by
  constructor
  · induction ops generalizing c with
    | nil => rfl
    | cons op ops ih =>
      have hop : (runOp op c).2 = c := by cases op <;> rfl
      simpa [runOps, hop] using ih c
  · intro op
    cases op <;> rfl

/-- Claim C8: both embedded profiles carry the placeholder token
`"token"`, so the specified construction validation rejects each with
`PlaceholderCredential`, and neither observed profile constructs a
`DeviceConfig`. -/
theorem claim8_observed_profiles_placeholder :
    profileLab.authToken = "token" ∧
    profileEsp32.authToken = "token" ∧
    buildDeviceConfig profileLab = Except.error ConfigError.PlaceholderCredential ∧
    buildDeviceConfig profileEsp32 = Except.error ConfigError.PlaceholderCredential :=
  ⟨rfl, rfl, rfl, rfl⟩

/-- Claim C9: the two embedded profiles agree on `wifiPassword`,
`authToken`, `machineName`, `machineId` and on the defaulted RFID flag
(`false` for both), and differ exactly in `wifiSsid` and
`serverAddress`; in particular their `machineId` values are equal. -/
theorem claim9_profiles_agree :
    profileLab.wifiPassword = profileEsp32.wifiPassword ∧
    profileLab.authToken = profileEsp32.authToken ∧
    profileLab.machineName = profileEsp32.machineName ∧
    profileLab.machineId = profileEsp32.machineId ∧
    profileLab.rfidAuthConstant.getD false = false ∧
    profileEsp32.rfidAuthConstant.getD false = false ∧
    profileLab.wifiSsid ≠ profileEsp32.wifiSsid ∧
    profileLab.serverAddress ≠ profileEsp32.serverAddress := by
  refine ⟨rfl, rfl, rfl, rfl, rfl, rfl, ?_, ?_⟩ <;> decide

/-- Claim C10: the lab profile's server address `"0.0.0.0"` is a
syntactically valid IPv4 literal, and construction from that profile
does not fail with `InvalidAddress` (it fails later, on the placeholder
token). -/
theorem claim10_allzeros_address :
    isValidIPv4 profileLab.serverAddress = true ∧
    buildDeviceConfig profileLab ≠ Except.error ConfigError.InvalidAddress := by
  refine ⟨rfl, ?_⟩
  decide

end RFIDBox3D
